import Mathlib

/-!
Shallow embedding of the ANGEL-X options scalping decision core
(position sizing, Greeks cache, risk manager, trade manager exit waterfall,
entry engine, trap detection engine, bias engine).

Modelling conventions:
* Python floats are modelled as exact rationals (`ℚ`), Python ints as `ℤ`
  (counters as `ℕ`), Python `None` as `Option.none`.
* A Python function that can raise an exception is modelled with an `Option`
  result, `none` standing for the raised exception.
* Wall-clock readings (`datetime.now()` / `time.time()`) are passed in as an
  explicit `now : ℚ` argument.
* Logging calls, diagnostic string interpolation and performance counters not
  needed by any property are elided; rejection reasons keep the fixed text of
  the corresponding source string (interpolated numerals are dropped).
-/

/-- Python `int(x)` truncates toward zero. -/
def pyInt (q : ℚ) : ℤ := if 0 ≤ q then ⌊q⌋ else -⌊-q⌋

/-- Python `xs[-n:]`: the last `n` elements of a list. -/
def lastN (n : ℕ) (l : List α) : List α := l.drop (l.length - n)

/-- Maximum of a list of rationals (Python `max`, meaningful on nonempty lists). -/
def listMax (l : List ℚ) : ℚ := l.foldl max (l.headD 0)

/-- Minimum of a list of rationals (Python `min`, meaningful on nonempty lists). -/
def listMin (l : List ℚ) : ℚ := l.foldl min (l.headD 0)

/-- Sum of a list of rationals. -/
def listSum (l : List ℚ) : ℚ := l.foldl (· + ·) 0

/-! ## Configuration (config/config.example.py)

The repository imports `from config import config`; `config/config.py` itself
is not committed, its committed template is `config/config.example.py`
("Copy this file to config.py"), whose values are reproduced here.

Note: the template stores the per-trade risk and hard-SL thresholds as decimal
fractions (`RISK_PER_TRADE_OPTIMAL = 0.02`, `HARD_SL_PERCENT_EXCEED_SKIP =
0.10`) while `src/core/position_sizing.py` documents "config already in
integer percentage form" and `src/core/expiry_manager.py` documents "Already
in percentage form (e.g., 1)".  The consequences are proved below. -/

namespace Config

def MINIMUM_LOT_SIZE : ℤ := 75
def IV_EXTREMELY_LOW_THRESHOLD : ℚ := 15
def IV_EXTREMELY_HIGH_THRESHOLD : ℚ := 50
def IV_SAFE_ZONE : ℚ × ℚ := (20, 40)
def BULLISH_DELTA_MIN : ℚ := 0.45
def BEARISH_DELTA_MAX : ℚ := -0.45
def NO_TRADE_DELTA_WEAK : ℚ := 0.35
def NO_TRADE_GAMMA_FLAT : ℚ := 0.01
def IDEAL_DELTA_CALL : ℚ × ℚ := (0.45, 0.65)
def IDEAL_DELTA_PUT : ℚ × ℚ := (-0.65, -0.45)
def IDEAL_GAMMA_MIN : ℚ := 0.002
def MAX_SPREAD_PERCENT : ℚ := 1.0
def MIN_VOLUME_THRESHOLD : ℤ := 50
def MIN_OI_THRESHOLD : ℤ := 100
def ENTRY_VOLUME_RISING : Bool := true
def ENTRY_OI_RISING : Bool := true
def ENTRY_GAMMA_RISING : Bool := true
def REJECT_OI_FLAT_THRESHOLD : ℚ := 0.002
def REJECT_IV_DROP_PERCENT : ℚ := -3.0
def REJECT_SPREAD_WIDENING : ℚ := 1.5
def REJECT_DELTA_SPIKE_COLLAPSE : ℚ := 0.20
def ENTRY_PROFIT_TARGET_PERCENT : ℚ := 7.0
def RISK_PER_TRADE_MIN : ℚ := 0.01
def RISK_PER_TRADE_MAX : ℚ := 0.05
def RISK_PER_TRADE_OPTIMAL : ℚ := 0.02
def HARD_SL_PERCENT_MIN : ℚ := 0.06
def HARD_SL_PERCENT_EXCEED_SKIP : ℚ := 0.10
def CAPITAL : ℚ := 100000
def MAX_POSITION_SIZE : ℤ := 100
def EXIT_DELTA_WEAKNESS_PERCENT : ℚ := 0.15
def EXIT_GAMMA_ROLLOVER : Bool := true
/-- `EXIT_THETA_DAMAGE_THRESHOLD = -0.05`; the source only tests its truthiness
(`if config.EXIT_THETA_DAMAGE_THRESHOLD:`), and `-0.05` is truthy. -/
def EXIT_THETA_DAMAGE_TRUTHY : Bool := true
/-- `EXIT_IV_CRUSH_PERCENT = -5.0`; truthy when tested as a condition. -/
def EXIT_IV_CRUSH_TRUTHY : Bool := true
def EXIT_IV_CRUSH_PERCENT : ℚ := -5.0
def EXIT_OI_PRICE_MISMATCH : Bool := true
def DETECT_OI_TRAP_NO_PREMIUM_RISE : Bool := true
def DETECT_OI_TRAP_PREMIUM_RISE_NO_OI : Bool := true
def DETECT_OI_TRAP_SPIKE_NO_FOLLOW : Bool := true
def DETECT_IV_TRAP_SUDDEN_DROP : Bool := true
def DETECT_IV_TRAP_CHOPPY_UNDERLYING : Bool := true
def DETECT_SPREAD_TRAP_WIDE_ENTRY : Bool := true
def DETECT_LIQUIDITY_DROP : Bool := true
/-- `getattr(config, 'GREEKS_API_MIN_INTERVAL', 1)` — attribute absent, default 1. -/
def GREEKS_API_MIN_INTERVAL : ℚ := 1
/-- `getattr(config, 'GREEKS_CACHE_TTL', 10)` — attribute absent, default 10. -/
def GREEKS_CACHE_TTL : ℚ := 10
/-- `getattr(config, 'MIN_OI_FOR_ENTRY', 1)` — attribute absent, default 1. -/
def MIN_OI_FOR_ENTRY : ℤ := 1
/-- `getattr(config, 'MIN_OI_CHANGE_FOR_ENTRY', 0)` — attribute absent, default 0. -/
def MIN_OI_CHANGE_FOR_ENTRY : ℚ := 0
/-- `getattr(config, 'ENTRY_SIGNALS_REQUIRED_COUNT', 2)` — attribute absent, default 2. -/
def ENTRY_SIGNALS_REQUIRED_COUNT : ℕ := 2
/-- `getattr(config, 'ENTRY_MIN_CONFIDENCE', 40.0)` — attribute absent, default 40. -/
def ENTRY_MIN_CONFIDENCE : ℚ := 40.0

end Config

/-! ## Position Sizing Engine (src/core/position_sizing.py) -/

namespace PositionSizing

/-- The `PositionSize` dataclass. -/
structure PositionSize where
  quantity : ℤ
  lot_size : ℤ
  num_lots : ℚ
  capital_allocated : ℚ
  max_loss_amount : ℚ
  hard_sl_percent : ℚ
  hard_sl_price : ℚ
  target_price : ℚ
  risk_reward_ratio : ℚ
  sizing_valid : Bool
  rejection_reason : Option String := none
deriving Repr, DecidableEq

/-- The slice of the configuration module read by `PositionSizing`
(`config.CAPITAL`, `config.MINIMUM_LOT_SIZE` are captured in `__init__`,
the rest is read inside `calculate_position_size`). -/
structure PSConfig where
  risk_per_trade_min : ℚ
  risk_per_trade_max : ℚ
  risk_per_trade_optimal : ℚ
  hard_sl_percent_min : ℚ
  hard_sl_percent_exceed_skip : ℚ
  capital : ℚ
  minimum_lot_size : ℤ
  max_position_size : ℤ
deriving Repr, DecidableEq

/-- The configuration values of config/config.example.py. -/
def examplePSConfig : PSConfig where
  risk_per_trade_min := Config.RISK_PER_TRADE_MIN
  risk_per_trade_max := Config.RISK_PER_TRADE_MAX
  risk_per_trade_optimal := Config.RISK_PER_TRADE_OPTIMAL
  hard_sl_percent_min := Config.HARD_SL_PERCENT_MIN
  hard_sl_percent_exceed_skip := Config.HARD_SL_PERCENT_EXCEED_SKIP
  capital := Config.CAPITAL
  minimum_lot_size := Config.MINIMUM_LOT_SIZE
  max_position_size := Config.MAX_POSITION_SIZE

/-- Modelled from the spec: the configuration `config/config.py` actually
deployed is absent from the repository (the template tells the user to copy
and edit it).  The spec and the in-source comments ("config already in
integer percentage form", class docstring "Risk: 1-5% per trade only, SL:
6-8% typical, >10% SKIP") describe integer-percentage-form risk values:
risk bounds 1..5 with optimal 2, SL floor 6 and exceed-skip threshold 10.
`max_position_size` is left above the scenario quantity so the cap does not
bind. -/
def specPercentPSConfig : PSConfig where
  risk_per_trade_min := 1
  risk_per_trade_max := 5
  risk_per_trade_optimal := 2
  hard_sl_percent_min := 6
  hard_sl_percent_exceed_skip := 10
  capital := 100000
  minimum_lot_size := 75
  max_position_size := 1800

/-- Expiry-adjusted rules dict as consumed by `calculate_position_size`
(`expiry_rules.get('risk_percent', None)`). -/
structure PSExpiryRules where
  risk_percent : Option ℚ
deriving Repr, DecidableEq

/-- `PositionSizing.calculate_position_size`.

The result is `none` exactly when the Python code raises: with
`hard_sl_price > 0` the stop-loss percent is computed as
`abs((hard_sl_price - entry_price) / entry_price * 100)`, a
`ZeroDivisionError` when `entry_price == 0`.

`actual_risk_percent` (used only in a log line) is elided. -/
def calculate_position_size (cfg : PSConfig) (entry_price hard_sl_price target_price : ℚ)
    (risk_percent_arg : Option ℚ) (expiry_rules : Option PSExpiryRules) :
    Option PositionSize :=
  -- Apply expiry rules if provided
  let risk_percent_0 : Option ℚ :=
    match expiry_rules with
    | some er => er.risk_percent
    | none => risk_percent_arg
  -- Default risk percentage
  let risk_percent_1 : ℚ := risk_percent_0.getD cfg.risk_per_trade_optimal
  -- Validate risk bounds
  let risk_percent_2 : ℚ :=
    if risk_percent_1 < cfg.risk_per_trade_min then cfg.risk_per_trade_min else risk_percent_1
  let risk_percent : ℚ :=
    if risk_percent_2 > cfg.risk_per_trade_max then cfg.risk_per_trade_max else risk_percent_2
  let risk_decimal : ℚ := risk_percent / 100
  -- Calculate SL percent (division by entry_price raises when entry_price = 0)
  if hard_sl_price > 0 ∧ entry_price = 0 then
    none
  else
    let sl_percent : ℚ :=
      if hard_sl_price > 0 then |((hard_sl_price - entry_price) / entry_price * 100)|
      else cfg.hard_sl_percent_min
    -- Hard SL validation
    if sl_percent > cfg.hard_sl_percent_exceed_skip then
      some { quantity := 0, lot_size := cfg.minimum_lot_size, num_lots := 0,
             capital_allocated := 0, max_loss_amount := 0, hard_sl_percent := sl_percent,
             hard_sl_price := hard_sl_price, target_price := target_price,
             risk_reward_ratio := 0, sizing_valid := false,
             rejection_reason := some "SL too wide" }
    else
      let max_loss_allowed : ℚ := cfg.capital * risk_decimal
      let loss_per_unit : ℚ := |entry_price - hard_sl_price|
      if loss_per_unit ≤ 0 then
        some { quantity := 0, lot_size := cfg.minimum_lot_size, num_lots := 0,
               capital_allocated := 0, max_loss_amount := 0, hard_sl_percent := 0,
               hard_sl_price := hard_sl_price, target_price := target_price,
               risk_reward_ratio := 0, sizing_valid := false,
               rejection_reason := some "Invalid SL calculation" }
      else
        let raw_qty : ℚ := max_loss_allowed / loss_per_unit
        -- Round to lot size
        let num_lots : ℤ := pyInt (raw_qty / (cfg.minimum_lot_size : ℚ))
        if num_lots < 1 then
          some { quantity := 0, lot_size := cfg.minimum_lot_size, num_lots := 0,
                 capital_allocated := 0, max_loss_amount := 0, hard_sl_percent := sl_percent,
                 hard_sl_price := hard_sl_price, target_price := target_price,
                 risk_reward_ratio := 0, sizing_valid := false,
                 rejection_reason := some "Insufficient capital for 1 lot" }
        else
          let final_qty_0 : ℤ := num_lots * cfg.minimum_lot_size
          -- Cap at max position size
          let final_qty : ℤ :=
            if final_qty_0 > cfg.max_position_size then cfg.max_position_size else final_qty_0
          let num_lots_final : ℚ :=
            if final_qty_0 > cfg.max_position_size then
              (cfg.max_position_size : ℚ) / (cfg.minimum_lot_size : ℚ)
            else (num_lots : ℚ)
          let actual_max_loss : ℚ := (final_qty : ℚ) * loss_per_unit
          let capital_allocated : ℚ := entry_price * (final_qty : ℚ)
          let profit_per_unit : ℚ := if target_price > 0 then |target_price - entry_price| else 0
          let total_profit : ℚ := (final_qty : ℚ) * profit_per_unit
          let risk_reward_ratio : ℚ :=
            if actual_max_loss > 0 then total_profit / actual_max_loss else 0
          some { quantity := final_qty, lot_size := cfg.minimum_lot_size,
                 num_lots := num_lots_final, capital_allocated := capital_allocated,
                 max_loss_amount := actual_max_loss, hard_sl_percent := sl_percent,
                 hard_sl_price := hard_sl_price, target_price := target_price,
                 risk_reward_ratio := risk_reward_ratio, sizing_valid := true,
                 rejection_reason := none }

end PositionSizing

/-! ## Greeks & OI Data Manager (src/utils/greeks_data_manager.py) -/

namespace GreeksDataManager

/-- The `GreeksSnapshot` dataclass. -/
structure GreeksSnapshot where
  symbol : String
  timestamp : ℚ
  delta : ℚ
  gamma : ℚ
  theta : ℚ
  vega : ℚ
  iv : ℚ
  ltp : ℚ
  bid : ℚ
  ask : ℚ
  volume : ℤ
  oi : ℤ
  oi_change : ℚ
deriving Repr, DecidableEq

/-- `GreeksSnapshot.is_stale`. -/
def GreeksSnapshot.is_stale (s : GreeksSnapshot) (now : ℚ) (max_age_seconds : ℚ) : Bool :=
  decide (now - s.timestamp > max_age_seconds)

/-- Lookup in a Python dict modelled as an association list (`d.get(k)`). -/
def assocGet (l : List (String × α)) (k : String) : Option α :=
  match l with
  | [] => none
  | (k', v) :: rest => if k' = k then some v else assocGet rest k

/-- Update of a Python dict modelled as an association list (`d[k] = v`). -/
def assocSet (l : List (String × α)) (k : String) (v : α) : List (String × α) :=
  match l with
  | [] => [(k, v)]
  | (k', v') :: rest => if k' = k then (k, v) :: rest else (k', v') :: assocSet rest k v

/-- The mutable state of `GreeksDataManager` relevant to the Greeks cache
(the chain cache, the active-symbol set and the background-thread handles are
independent of the per-symbol Greeks path modelled here). -/
structure GDMState where
  greeks_cache : List (String × GreeksSnapshot)
  prev_greeks : List (String × GreeksSnapshot)
  current_greeks : List (String × GreeksSnapshot)
  last_api_call : List (String × ℚ)
  api_call_count : List (String × ℕ)
  cache_hits : ℕ
  cache_misses : ℕ
  api_calls_total : ℕ
deriving Repr, DecidableEq

def initGDMState : GDMState :=
  { greeks_cache := [], prev_greeks := [], current_greeks := [], last_api_call := [],
    api_call_count := [], cache_hits := 0, cache_misses := 0, api_calls_total := 0 }

/-- Outcome of one call to the collaborator
`options_helper.get_option_greeks`: a successful response (carrying the
Greeks/quote fields extracted from it), a response with missing or
non-success status, or a raised exception. -/
inductive ProviderOutcome where
  | success (snapshot : GreeksSnapshot)
  | failure
  | raised
deriving Repr, DecidableEq

/-- `GreeksDataManager._fetch_greeks_for_symbol`.

The exchange/underlying parameters are pass-through routing data for the
collaborator and are elided; the collaborator call itself is modelled by the
`provider` outcome.  On success the snapshot is stamped with the current
symbol and time (`timestamp=datetime.now()`), as in the source. -/
def fetch_greeks_for_symbol (st : GDMState) (symbol : String) (now : ℚ)
    (provider : ProviderOutcome) (force : Bool) : Option GreeksSnapshot × GDMState :=
  -- Rate limiting check
  let last_call : ℚ := (assocGet st.last_api_call symbol).getD 0
  if force = false ∧ now - last_call < Config.GREEKS_API_MIN_INTERVAL then
    -- Too soon, return cached if available
    (assocGet st.greeks_cache symbol, st)
  else
    -- last_api_call and the call counters are updated before the API call,
    -- so they are bumped also when the call fails or raises
    let st1 : GDMState :=
      { st with
        last_api_call := assocSet st.last_api_call symbol now,
        api_calls_total := st.api_calls_total + 1,
        api_call_count :=
          assocSet st.api_call_count symbol (((assocGet st.api_call_count symbol).getD 0) + 1) }
    match provider with
    | .failure => (assocGet st1.greeks_cache symbol, st1)
    | .raised => (assocGet st1.greeks_cache symbol, st1)
    | .success raw =>
      let snapshot : GreeksSnapshot := { raw with symbol := symbol, timestamp := now }
      let st2 : GDMState :=
        { st1 with
          prev_greeks :=
            match assocGet st1.current_greeks symbol with
            | some cur => assocSet st1.prev_greeks symbol cur
            | none => st1.prev_greeks,
          current_greeks := assocSet st1.current_greeks symbol snapshot,
          greeks_cache := assocSet st1.greeks_cache symbol snapshot }
      (some snapshot, st2)

/-- `GreeksDataManager.get_greeks`.

On a cache miss or a stale entry the source calls
`self._fetch_greeks_for_symbol(symbol, exchange, underlying_symbol,
underlying_exchange)`, leaving the `force` parameter at its default `True`. -/
def get_greeks (st : GDMState) (symbol : String) (force_refresh : Bool) (now : ℚ)
    (provider : ProviderOutcome) : Option GreeksSnapshot × GDMState :=
  let cached_hit : Option GreeksSnapshot :=
    if force_refresh then none
    else
      match assocGet st.greeks_cache symbol with
      | some cached =>
        if cached.is_stale now Config.GREEKS_CACHE_TTL then none else some cached
      | none => none
  match cached_hit with
  | some cached => (some cached, { st with cache_hits := st.cache_hits + 1 })
  | none =>
    let st1 : GDMState := { st with cache_misses := st.cache_misses + 1 }
    fetch_greeks_for_symbol st1 symbol now provider true

end GreeksDataManager

/-! ## Risk Manager (src/core/risk_manager.py) -/

namespace RiskManager

/-- The configuration captured by `RiskManager.__init__` plus `config.CAPITAL`
(read inside `can_take_trade`).  The source reads `config.MAX_DAILY_LOSS` and
`config.MAX_DAILY_PROFIT`, names that do not appear in
config/config.example.py, so the values are kept as parameters. -/
structure RMConfig where
  max_daily_loss : ℚ
  max_daily_profit : ℚ
  max_trades_per_day : ℕ
  max_position_size : ℤ
  capital : ℚ
deriving Repr, DecidableEq

/-- The mutable daily-tracking state of `RiskManager`
(`trade_history`, used only for reporting, is elided). -/
structure RMState where
  daily_pnl : ℚ
  trades_today : ℕ
  total_risk_exposure : ℚ
  losses_in_row : ℕ
  trading_halted : Bool
  halt_reason : Option String
deriving Repr, DecidableEq

def initRMState : RMState :=
  { daily_pnl := 0, trades_today := 0, total_risk_exposure := 0, losses_in_row := 0,
    trading_halted := false, halt_reason := none }

/-- `RiskManager._halt_trading`. -/
def halt_trading (st : RMState) (reason : String) : RMState :=
  { st with trading_halted := true, halt_reason := some reason }

/-- The fields of the `trade_info` dict read by `can_take_trade`
(`trade_info.get('quantity', 0)` and `trade_info.get('risk_amount', 0)`). -/
structure TradeInfo where
  quantity : ℤ
  risk_amount : ℚ
deriving Repr, DecidableEq

/-- `RiskManager.can_take_trade`.  `_within_trading_window` compares the wall
clock against the configured market hours and is passed in as a boolean.  The
consecutive-losses check at `losses_in_row >= 3` only logs a warning and is
elided.  Returns ((allowed, reason), updated state): the daily-loss and
daily-profit checks call `_halt_trading`, mutating the state. -/
def can_take_trade (cfg : RMConfig) (st : RMState) (trade_info : TradeInfo)
    (within_trading_window : Bool) : (Bool × String) × RMState :=
  if st.trading_halted then ((false, "Trading halted"), st)
  else if st.daily_pnl ≤ -cfg.max_daily_loss then
    ((false, "Daily loss limit reached"), halt_trading st "Daily loss limit reached")
  else if cfg.max_daily_profit > 0 ∧ st.daily_pnl ≥ cfg.max_daily_profit then
    ((false, "Daily profit target achieved"), halt_trading st "Daily profit target achieved")
  else if st.trades_today ≥ cfg.max_trades_per_day then
    ((false, "Max trades per day reached"), st)
  else if trade_info.quantity > cfg.max_position_size then
    ((false, "Position size exceeds limit"), st)
  else if within_trading_window = false then
    ((false, "Outside trading hours"), st)
  else if st.total_risk_exposure + trade_info.risk_amount > cfg.capital * 0.1 then
    ((false, "Total risk exposure too high"), st)
  else
    ((true, "Trade allowed"), st)

/-- `RiskManager._check_circuit_breakers`. -/
def check_circuit_breakers (cfg : RMConfig) (st : RMState) : RMState :=
  let st1 : RMState :=
    if st.daily_pnl ≤ -cfg.max_daily_loss then halt_trading st "Daily loss limit breached" else st
  let st2 : RMState :=
    if cfg.max_daily_profit > 0 ∧ st1.daily_pnl ≥ cfg.max_daily_profit then
      halt_trading st1 "Daily profit target achieved"
    else st1
  if st2.losses_in_row ≥ 5 then halt_trading st2 "5 consecutive losses" else st2

/-- `RiskManager.record_trade` (`pnl = trade_result.get('pnl', 0)`; appending
to `trade_history` is elided). -/
def record_trade (cfg : RMConfig) (st : RMState) (pnl : ℚ) : RMState :=
  let st1 : RMState :=
    { st with
      daily_pnl := st.daily_pnl + pnl,
      trades_today := st.trades_today + 1,
      losses_in_row := if pnl < 0 then st.losses_in_row + 1 else 0 }
  check_circuit_breakers cfg st1

/-- `RiskManager.update_risk_exposure`. -/
def update_risk_exposure (st : RMState) (exposure_change : ℚ) : RMState :=
  { st with total_risk_exposure := max 0 (st.total_risk_exposure + exposure_change) }

/-- `RiskManager.resume_trading`. -/
def resume_trading (st : RMState) : RMState :=
  { st with trading_halted := false, halt_reason := none }

/-- `RiskManager.reset_daily_stats`: zeroes the daily statistics and also
sets `trading_halted = False` and `halt_reason = None`. -/
def reset_daily_stats (_st : RMState) : RMState :=
  { daily_pnl := 0, trades_today := 0, total_risk_exposure := 0, losses_in_row := 0,
    trading_halted := false, halt_reason := none }

/-- One call in a sequence of Risk Manager operations (the operations named
by the temporal claim, other than `resume_trading` and `reset_daily_stats`). -/
inductive RMOp where
  | canTakeTrade (trade_info : TradeInfo) (within_trading_window : Bool)
  | recordTrade (pnl : ℚ)
  | updateRiskExposure (exposure_change : ℚ)
deriving Repr

/-- State effect of one operation (the value returned by `can_take_trade` is
dropped here; it is examined separately). -/
def applyRMOp (cfg : RMConfig) (st : RMState) : RMOp → RMState
  | .canTakeTrade trade_info w => (can_take_trade cfg st trade_info w).2
  | .recordTrade pnl => record_trade cfg st pnl
  | .updateRiskExposure d => update_risk_exposure st d

/-- State effect of a sequence of operations, applied left to right. -/
def applyRMOps (cfg : RMConfig) (ops : List RMOp) (st : RMState) : RMState :=
  ops.foldl (applyRMOp cfg) st

end RiskManager

/-! ## Trade Manager (src/core/trade_manager.py) -/

namespace TradeManager

/-- The `Trade` dataclass.  The realistic-cost fields
(`entry_slippage` etc.) are only written inside the
`USE_REALISTIC_SLIPPAGE`/`USE_REALISTIC_FEES` branch; neither attribute is in
the configuration template, so `getattr(..., False)` disables that branch and
the fields are elided. -/
structure Trade where
  trade_id : String
  entry_time : ℚ
  exit_time : Option ℚ
  option_type : String
  strike : ℤ
  entry_price : ℚ
  current_price : ℚ
  quantity : ℤ
  entry_delta : ℚ
  entry_gamma : ℚ
  entry_theta : ℚ
  entry_iv : ℚ
  sl_price : ℚ
  target_price : ℚ
  status : String
  exit_reason : Option String
  pnl : ℚ
  pnl_percent : ℚ
  time_in_trade_sec : ℤ
deriving Repr, DecidableEq

/-- The expiry-rules dict fields read by `_check_exit_triggers`
(`expiry_rules.get('min_time_in_trade', 20)` and
`expiry_rules.get('max_time_in_trade', 300)`). -/
structure TMExpiryRules where
  min_time_in_trade : Option ℤ
  max_time_in_trade : Option ℤ
deriving Repr, DecidableEq

/-- `TradeManager._check_exit_triggers`: the exit waterfall, strict priority
order, first match wins. -/
def check_exit_triggers (trade : Trade)
    (current_price current_delta current_gamma current_theta current_iv : ℚ)
    (current_oi prev_oi : ℤ) (prev_price : ℚ)
    (expiry_rules : Option TMExpiryRules) : Option String :=
  -- EXPIRY-DAY TIME-BASED EXIT (highest priority)
  let expiry_exit : Option String :=
    match expiry_rules with
    | none => none
    | some rules =>
      let min_time : ℤ := rules.min_time_in_trade.getD 20
      let max_time : ℤ := rules.max_time_in_trade.getD 300
      if trade.time_in_trade_sec > max_time then
        if trade.pnl > 0 then some "expiry_time_based_profit_exit"
        else some "expiry_time_forced_exit_loss"
      else if trade.time_in_trade_sec > min_time ∧ trade.pnl > 0 then
        let profit_target : ℚ := trade.entry_price * (1 + Config.ENTRY_PROFIT_TARGET_PERCENT / 100)
        if current_price ≥ profit_target then some "expiry_time_based_target" else none
      else none
  match expiry_exit with
  | some r => some r
  | none =>
    -- Trigger 1: Hard SL (absolute)
    if current_price ≤ trade.sl_price then some "hard_sl_hit"
    -- Trigger 2: Target hit
    else if current_price ≥ trade.target_price then some "target_hit"
    else
      -- Trigger 3: Delta weakness
      let delta_degradation : ℚ :=
        if trade.entry_delta ≠ 0 then |current_delta| / |trade.entry_delta| else 1
      if delta_degradation < 1 - Config.EXIT_DELTA_WEAKNESS_PERCENT / 100 then
        some "delta_weakness"
      -- Trigger 4: Gamma rollover
      else if Config.EXIT_GAMMA_ROLLOVER ∧ current_gamma ≤ trade.entry_gamma * 0.8 then
        some "gamma_rollover"
      -- Trigger 5: Theta damage
      else if Config.EXIT_THETA_DAMAGE_TRUTHY ∧ |current_price - trade.entry_price| < 0.5 ∧
          current_theta < trade.entry_theta then
        some "theta_damage"
      else
        -- Trigger 6: IV crush
        let iv_change_pct : ℚ :=
          if trade.entry_iv > 0 then (current_iv - trade.entry_iv) / trade.entry_iv * 100 else 0
        if Config.EXIT_IV_CRUSH_TRUTHY ∧ iv_change_pct < Config.EXIT_IV_CRUSH_PERCENT ∧
            |current_price - trade.entry_price| < 1 then
          some "iv_crush"
        -- Trigger 7: OI-Price mismatch
        else if Config.EXIT_OI_PRICE_MISMATCH ∧ current_oi - prev_oi > 100 ∧
            |current_price - prev_price| < 0.5 then
          some "oi_price_mismatch"
        else none

/-- `TradeManager.update_trade`: recomputes price/PnL/time-in-trade on the
trade, then evaluates the exit waterfall.  Returns (exit reason, updated
trade). -/
def update_trade (trade : Trade) (now : ℚ)
    (current_price current_delta current_gamma current_theta current_iv : ℚ)
    (current_oi prev_oi : ℤ) (prev_price : ℚ)
    (expiry_rules : Option TMExpiryRules) : Option String × Trade :=
  let trade1 : Trade :=
    { trade with
      current_price := current_price,
      pnl := (current_price - trade.entry_price) * (trade.quantity : ℚ),
      pnl_percent :=
        if trade.entry_price > 0 then
          (current_price - trade.entry_price) / trade.entry_price * 100
        else 0,
      time_in_trade_sec := pyInt (now - trade.entry_time) }
  (check_exit_triggers trade1 current_price current_delta current_gamma current_theta
    current_iv current_oi prev_oi prev_price expiry_rules, trade1)

end TradeManager

/-! ## Trap Detection Engine (src/engines/trap_detection_engine.py) -/

namespace TrapDetection

/-- The `TrapType` enum. -/
inductive TrapType where
  | OI_NO_PREMIUM_RISE
  | PREMIUM_NO_OI
  | OI_SPIKE_NO_FOLLOW
  | IV_DROP_CRUSH
  | IV_CHOPPY_UNDERLYING
  | SPREAD_WIDENING
  | LIQUIDITY_EVAPORATION
  | DELTA_SPIKE_COLLAPSE
deriving Repr, DecidableEq

/-- The `TrapSignal` dataclass (the human-readable `description` and the
`data_snapshot` diagnostic dict are elided). -/
structure TrapSignal where
  trap_type : TrapType
  severity : ℚ
  timestamp : ℚ
deriving Repr, DecidableEq

/-- The rolling buffers and trap log of `TrapDetectionEngine`.  History
entries keep the fields stored by `update_price_data`:
`oi_history` holds (oi, oi_change, timestamp), `premium_history` (ltp,
timestamp), `iv_history` (iv, timestamp), `spread_history` (spread,
spread_pct, timestamp), `delta_history` (delta, timestamp), `volume_history`
(volume, timestamp). -/
structure TrapState where
  oi_history : List (ℤ × ℚ × ℚ)
  premium_history : List (ℚ × ℚ)
  iv_history : List (ℚ × ℚ)
  spread_history : List (ℚ × ℚ × ℚ)
  delta_history : List (ℚ × ℚ)
  volume_history : List (ℤ × ℚ)
  detected_traps : List TrapSignal
deriving Repr, DecidableEq

def initTrapState : TrapState :=
  { oi_history := [], premium_history := [], iv_history := [], spread_history := [],
    delta_history := [], volume_history := [], detected_traps := [] }

/-- Reversal counting loop of `_detect_choppy_underlying_trap`
(`for i in range(1, len(values) - 1)`: a point strictly above or strictly
below both neighbours is a local reversal). -/
def countReversals : List ℚ → ℕ
  | a :: b :: c :: rest =>
    (if (b > a ∧ b > c) ∨ (b < a ∧ b < c) then 1 else 0) + countReversals (b :: c :: rest)
  | _ => 0

/-- Maximum of a list of integers (Python `max`, meaningful on nonempty lists). -/
def listMaxZ (l : List ℤ) : ℤ := l.foldl max (l.headD 0)

/-- `_detect_oi_no_premium_trap`. -/
def detect_oi_no_premium_trap (st : TrapState) (now : ℚ) : Option TrapSignal :=
  if st.oi_history.length < 5 then none
  else
    let recent_oi := lastN 5 st.oi_history
    let recent_premium := lastN 5 st.premium_history
    let oi_trend : ℤ := (recent_oi.getLastD (0, 0, 0)).1 - (recent_oi.headD (0, 0, 0)).1
    let premiums : List ℚ := recent_premium.map (·.1)
    let premium_volatility : ℚ := listMax premiums - listMin premiums
    if oi_trend > 0 ∧ premium_volatility < 1 then
      some { trap_type := .OI_NO_PREMIUM_RISE,
             severity := min (|(oi_trend : ℚ)| / 100 * 100) 80, timestamp := now }
    else none

/-- `_detect_premium_no_oi_trap`. -/
def detect_premium_no_oi_trap (st : TrapState) (now : ℚ) : Option TrapSignal :=
  if st.oi_history.length < 5 then none
  else
    let recent_oi := lastN 5 st.oi_history
    let recent_premium := lastN 5 st.premium_history
    let oi_trend : ℤ := (recent_oi.getLastD (0, 0, 0)).1 - (recent_oi.headD (0, 0, 0)).1
    let premium_trend : ℚ := (recent_premium.getLastD (0, 0)).1 - (recent_premium.headD (0, 0)).1
    if oi_trend < -50 ∧ premium_trend > 2 then
      some { trap_type := .PREMIUM_NO_OI, severity := min (|(oi_trend : ℚ)| / 50) 70,
             timestamp := now }
    else none

/-- `_detect_oi_spike_no_follow_trap`. -/
def detect_oi_spike_no_follow_trap (st : TrapState) (now : ℚ) : Option TrapSignal :=
  if st.oi_history.length < 10 then none
  else
    let recent_oi := lastN 10 st.oi_history
    let recent_premium := lastN 10 st.premium_history
    let oi_values : List ℤ := recent_oi.map (·.1)
    let max_oi_change : ℤ := listMaxZ (List.zipWith (· - ·) (oi_values.drop 1) oi_values)
    if max_oi_change > 200 then
      let premium_move : ℚ :=
        if recent_premium.length ≥ 5 then
          (recent_premium.getLastD (0, 0)).1 - ((lastN 5 recent_premium).headD (0, 0)).1
        else 0
      if |premium_move| < 1 then
        some { trap_type := .OI_SPIKE_NO_FOLLOW,
               severity := min ((max_oi_change : ℚ) / 200 * 75) 85, timestamp := now }
      else none
    else none

/-- `_detect_iv_crush_trap`. -/
def detect_iv_crush_trap (st : TrapState) (now : ℚ) (current_iv : ℚ) : Option TrapSignal :=
  if st.iv_history.length < 5 then none
  else
    let recent_iv := lastN 5 st.iv_history
    let premium_recent := lastN 5 st.premium_history
    let iv_change_percent : ℚ :=
      if (recent_iv.headD (0, 0)).1 > 0 then
        (current_iv - (recent_iv.headD (0, 0)).1) / (recent_iv.headD (0, 0)).1 * 100
      else 0
    let premium_move : ℚ := (premium_recent.getLastD (0, 0)).1 - (premium_recent.headD (0, 0)).1
    if iv_change_percent < Config.EXIT_IV_CRUSH_PERCENT ∧ |premium_move| < 1 then
      some { trap_type := .IV_DROP_CRUSH, severity := min (|iv_change_percent|) 85,
             timestamp := now }
    else none

/-- `_detect_choppy_underlying_trap`.  (The source divides by
`len(premium_values)`; through `update_price_data` the premium buffer always
has the same length as the IV buffer, hence is nonempty under the guard.) -/
def detect_choppy_underlying_trap (st : TrapState) (now : ℚ) : Option TrapSignal :=
  if st.iv_history.length < 10 then none
  else
    let recent_iv := lastN 10 st.iv_history
    let recent_premium := lastN 10 st.premium_history
    let avg_iv : ℚ := listSum (recent_iv.map (·.1)) / (recent_iv.length : ℚ)
    let premium_values : List ℚ := recent_premium.map (·.1)
    let reversals : ℕ := countReversals premium_values
    let choppiness_ratio : ℚ := (reversals : ℚ) / (premium_values.length : ℚ)
    if avg_iv > Config.IV_EXTREMELY_HIGH_THRESHOLD ∧ choppiness_ratio > 0.5 then
      some { trap_type := .IV_CHOPPY_UNDERLYING, severity := min (choppiness_ratio * 100) 70,
             timestamp := now }
    else none

/-- `_detect_spread_widening_trap`. -/
def detect_spread_widening_trap (st : TrapState) (now : ℚ) (current_spread_pct : ℚ) :
    Option TrapSignal :=
  if st.spread_history.length < 5 then none
  else
    let recent_spreads := lastN 5 st.spread_history
    let head_spreads := recent_spreads.take (recent_spreads.length - 2)
    let prev_avg_spread : ℚ :=
      listSum (head_spreads.map (·.2.1)) / (max head_spreads.length 1 : ℚ)
    let spread_widening : ℚ := current_spread_pct - prev_avg_spread
    if spread_widening > 0.5 then
      some { trap_type := .SPREAD_WIDENING, severity := min (spread_widening * 50) 75,
             timestamp := now }
    else none

/-- `_detect_liquidity_evaporation_trap`. -/
def detect_liquidity_evaporation_trap (st : TrapState) (now : ℚ) (current_volume : ℤ) :
    Option TrapSignal :=
  if st.volume_history.length < 5 then none
  else
    let recent_volumes := lastN 5 st.volume_history
    let head_volumes := recent_volumes.take (recent_volumes.length - 1)
    let avg_volume : ℚ :=
      listSum (head_volumes.map (fun v => (v.1 : ℚ))) / (max head_volumes.length 1 : ℚ)
    let volume_drop_pct : ℚ :=
      if avg_volume > 0 then (avg_volume - (current_volume : ℚ)) / avg_volume * 100 else 0
    if volume_drop_pct > 50 then
      some { trap_type := .LIQUIDITY_EVAPORATION, severity := min (volume_drop_pct / 2) 80,
             timestamp := now }
    else none

/-- `_detect_delta_spike_collapse_trap`. -/
def detect_delta_spike_collapse_trap (st : TrapState) (now : ℚ) (current_delta : ℚ) :
    Option TrapSignal :=
  if st.delta_history.length < 3 then none
  else
    let recent_deltas := lastN 3 st.delta_history
    let prev_delta : ℚ := (recent_deltas.headD (0, 0)).1
    let spike_delta : ℚ := ((recent_deltas.drop 1).headD (0, 0)).1
    let current : ℚ := (recent_deltas.getLastD (0, 0)).1
    if |spike_delta - prev_delta| > 0.15 ∧ |current - spike_delta| > 0.10 then
      some { trap_type := .DELTA_SPIKE_COLLAPSE,
             severity := min (|spike_delta - prev_delta| * 100) 75, timestamp := now }
    else none

/-- `hist[-50:]` trimming applied after each append (`if len > 50`). -/
def trim50 (l : List α) : List α := if l.length > 50 then lastN 50 l else l

/-- `TrapDetectionEngine.update_price_data`: append to the rolling buffers,
then run the detectors in source order (first match wins), with the
delta-spike-collapse detector always run last and overriding any earlier
match; a detected signal is appended to `detected_traps`. -/
def update_price_data (st : TrapState) (now : ℚ) (ltp bid ask : ℚ) (volume oi : ℤ)
    (oi_change delta iv : ℚ) : Option TrapSignal × TrapState :=
  let spread : ℚ := if ask > 0 ∧ bid > 0 then ask - bid else 0
  let spread_percent : ℚ := if ltp > 0 then spread / ltp * 100 else 0
  let st1 : TrapState :=
    { oi_history := trim50 (st.oi_history ++ [(oi, oi_change, now)]),
      premium_history := trim50 (st.premium_history ++ [(ltp, now)]),
      iv_history := trim50 (st.iv_history ++ [(iv, now)]),
      spread_history := trim50 (st.spread_history ++ [(spread, spread_percent, now)]),
      delta_history := trim50 (st.delta_history ++ [(delta, now)]),
      volume_history := trim50 (st.volume_history ++ [(volume, now)]),
      detected_traps := st.detected_traps }
  let t1 : Option TrapSignal :=
    if Config.DETECT_OI_TRAP_NO_PREMIUM_RISE then detect_oi_no_premium_trap st1 now else none
  let t2 : Option TrapSignal :=
    match t1 with
    | some s => some s
    | none =>
      if Config.DETECT_OI_TRAP_PREMIUM_RISE_NO_OI then detect_premium_no_oi_trap st1 now
      else none
  let t3 : Option TrapSignal :=
    match t2 with
    | some s => some s
    | none =>
      if Config.DETECT_OI_TRAP_SPIKE_NO_FOLLOW then detect_oi_spike_no_follow_trap st1 now
      else none
  let t4 : Option TrapSignal :=
    match t3 with
    | some s => some s
    | none => if Config.DETECT_IV_TRAP_SUDDEN_DROP then detect_iv_crush_trap st1 now iv else none
  let t5 : Option TrapSignal :=
    match t4 with
    | some s => some s
    | none =>
      if Config.DETECT_IV_TRAP_CHOPPY_UNDERLYING then detect_choppy_underlying_trap st1 now
      else none
  let t6 : Option TrapSignal :=
    match t5 with
    | some s => some s
    | none =>
      if Config.DETECT_SPREAD_TRAP_WIDE_ENTRY then
        detect_spread_widening_trap st1 now spread_percent
      else none
  let t7 : Option TrapSignal :=
    match t6 with
    | some s => some s
    | none =>
      if Config.DETECT_LIQUIDITY_DROP then detect_liquidity_evaporation_trap st1 now volume
      else none
  let trap_signal : Option TrapSignal :=
    match detect_delta_spike_collapse_trap st1 now delta with
    | some s => some s
    | none => t7
  match trap_signal with
  | some s => (some s, { st1 with detected_traps := st1.detected_traps ++ [s] })
  | none => (none, st1)

/-- `TrapDetectionEngine.get_recent_traps`. -/
def get_recent_traps (st : TrapState) (now : ℚ) (seconds : ℚ) : List TrapSignal :=
  st.detected_traps.filter (fun t => decide (t.timestamp > now - seconds))

/-- `TrapDetectionEngine.should_skip_entry`. -/
def should_skip_entry (st : TrapState) (now : ℚ) (trap_signal : Option TrapSignal) : Bool :=
  match trap_signal with
  | none => false
  | some s =>
    if s.severity > 70 then true
    else if s.severity > 50 then decide ((get_recent_traps st now 5).length > 0)
    else false

end TrapDetection

/-! ## Entry Engine (src/engines/entry_engine.py) -/

namespace EntryEngine

/-- The `EntrySignal` enum. -/
inductive EntrySignal where
  | NO_SIGNAL
  | CALL_BUY
  | PUT_BUY
deriving Repr, DecidableEq

/-- The `EntryContext` dataclass. -/
structure EntryContext where
  signal : EntrySignal
  option_type : String
  strike : ℤ
  entry_price : ℚ
  entry_delta : ℚ
  entry_gamma : ℚ
  entry_theta : ℚ
  entry_vega : ℚ
  entry_iv : ℚ
  reason_tags : List String
  confidence : ℚ
deriving Repr, DecidableEq

/-- The mutable state of `EntryEngine`: its trap-detection collaborator plus
the diagnostic history fields (`momentum_count` is never updated and is
elided). -/
structure EntryEngineState where
  trap : TrapDetection.TrapState
  last_entry_context : Option EntryContext
  entry_history : List EntryContext
deriving Repr, DecidableEq

def initEntryEngineState : EntryEngineState :=
  { trap := TrapDetection.initTrapState, last_entry_context := none, entry_history := [] }

/-- Result dict of `validate_greeks_for_entry` (the `reason` string and the
`details` dict are elided; `health_checks` is kept as the six booleans). -/
structure GreeksValidation where
  is_valid : Bool
  quality_score : ℚ
  delta_ok : Bool
  gamma_ok : Bool
  theta_ok : Bool
  vega_ok : Bool
  ltp_exists : Bool
  spread_ok : Bool
deriving Repr, DecidableEq

/-- `EntryEngine.validate_greeks_for_entry` on a non-null snapshot (the null
case is handled at the call site, where `if greeks_snapshot:` guards the
call). -/
def validate_greeks_for_entry (gs : GreeksDataManager.GreeksSnapshot) (option_type : String) :
    GreeksValidation :=
  let delta_ok : Bool :=
    if option_type = "CE" then decide (0.1 ≤ |gs.delta| ∧ |gs.delta| ≤ 0.9)
    else decide (-0.9 ≤ gs.delta ∧ gs.delta ≤ -0.1)
  let gamma_ok : Bool := decide (gs.gamma > 0.0001)
  let theta_ok : Bool := true
  let vega_ok : Bool := decide (gs.vega < 100)
  let ltp_exists : Bool := decide (gs.ltp > 0)
  let spread_ok : Bool :=
    if gs.ltp > 0 ∧ gs.ask > gs.bid then
      decide ((gs.ask - gs.bid) / gs.ltp * 100 ≤ Config.MAX_SPREAD_PERCENT)
    else decide (gs.ltp > 0)
  let checks : List Bool := [delta_ok, gamma_ok, theta_ok, vega_ok, ltp_exists, spread_ok]
  let quality_score : ℚ := listSum (checks.map (fun b => if b then 20 else 0))
  let healthy_checks : ℕ := (checks.filter (· = true)).length
  { is_valid := decide (healthy_checks ≥ 3), quality_score := quality_score,
    delta_ok := delta_ok, gamma_ok := gamma_ok, theta_ok := theta_ok, vega_ok := vega_ok,
    ltp_exists := ltp_exists, spread_ok := spread_ok }

/-- `EntryEngine._should_reject_entry` (the `current_oi` parameter is unused
in the source body as well). -/
def should_reject_entry (current_oi : ℤ)
    (current_ltp prev_ltp current_iv prev_iv current_spread_percent
      current_delta prev_delta : ℚ) : Bool :=
  if |current_ltp - prev_ltp| < Config.REJECT_OI_FLAT_THRESHOLD then true
  else if prev_iv > 0 ∧ (current_iv - prev_iv) / prev_iv * 100 < Config.REJECT_IV_DROP_PERCENT then
    true
  else if current_spread_percent > Config.REJECT_SPREAD_WIDENING then true
  else if |current_delta - prev_delta| > Config.REJECT_DELTA_SPIKE_COLLAPSE then true
  else false

/-- `EntryEngine.check_entry_signal`.  Returns the emitted `EntryContext` (or
`none` on rejection) together with the updated engine state; the trap
collaborator state is mutated by the `update_price_data` call even when the
entry is subsequently rejected. -/
def check_entry_signal (st : EntryEngineState) (now : ℚ)
    (bias_state : String) (bias_confidence : ℚ)
    (current_delta prev_delta current_gamma prev_gamma : ℚ)
    (current_oi : ℤ) (current_oi_change : ℚ)
    (current_ltp prev_ltp : ℚ) (current_volume prev_volume : ℤ)
    (current_iv prev_iv bid ask : ℚ) (selected_strike : ℤ)
    (current_spread_percent : ℚ)
    (greeks_snapshot : Option GreeksDataManager.GreeksSnapshot) :
    Option EntryContext × EntryEngineState :=
  -- Prerequisite 1: Bias permission
  if bias_state = "NO_TRADE" then (none, st)
  -- Prerequisite 2: Spread acceptable
  else if current_spread_percent > Config.MAX_SPREAD_PERCENT then (none, st)
  -- Prerequisite 3: Data valid
  else if bid ≤ 0 ∨ ask ≤ 0 ∨ current_ltp ≤ 0 then (none, st)
  else
    let option_type : String := if bias_state = "BULLISH" then "CE" else "PE"
    -- Greeks health validation, when a snapshot is supplied
    let greeks_gate : Option ℚ :=
      match greeks_snapshot with
      | none => some 0
      | some gs =>
        let v := validate_greeks_for_entry gs option_type
        if v.is_valid then some (v.quality_score * 0.3) else none
    match greeks_gate with
    | none => (none, st)
    | some greeks_boost =>
      -- Signal 1: LTP rising
      let s1 : Bool := decide (current_ltp > prev_ltp)
      -- Signal 2: Volume rising (configurable)
      let s2 : Bool := Config.ENTRY_VOLUME_RISING ∧ decide (current_volume > prev_volume)
      let c2 : Bool := s2 ∨ !Config.ENTRY_VOLUME_RISING
      -- Signal 3: OI analysis (oi_is_healthy is computed only for logging)
      let oi_is_rising : Bool := decide (current_oi_change > Config.MIN_OI_CHANGE_FOR_ENTRY)
      let s3 : Bool := Config.ENTRY_OI_RISING ∧ oi_is_rising
      -- Signal 4: Gamma rising (configurable)
      let s4 : Bool := Config.ENTRY_GAMMA_RISING ∧
        decide (current_gamma > prev_gamma) ∧ decide (current_gamma > Config.IDEAL_GAMMA_MIN)
      let c4 : Bool := s4 ∨ !Config.ENTRY_GAMMA_RISING
      let entry_signals : List String :=
        (if s1 then ["ltp_rising"] else []) ++ (if s2 then ["volume_rising"] else []) ++
        (if s3 then ["oi_rising"] else []) ++ (if s4 then ["gamma_rising"] else [])
      let confidence_score : ℚ := greeks_boost + (if s1 then 20 else 0) +
        (if s2 then 15 else 0) + (if s3 then 10 else 0) + (if s4 then 15 else 0)
      -- the OI branch bumps signal_count in all three of its cases
      let signal_count : ℕ := (if s1 then 1 else 0) + (if c2 then 1 else 0) + 1 +
        (if c4 then 1 else 0)
      -- Check signal count requirement
      if signal_count < Config.ENTRY_SIGNALS_REQUIRED_COUNT then (none, st)
      -- Check confidence threshold
      else if confidence_score < Config.ENTRY_MIN_CONFIDENCE then (none, st)
      else
        -- Signal 5: Delta power zone (mandatory)
        let delta_valid : Bool :=
          if bias_state = "BULLISH" then decide (current_delta ≥ Config.IDEAL_DELTA_CALL.1)
          else decide (Config.IDEAL_DELTA_PUT.1 ≤ current_delta ∧
            current_delta ≤ Config.IDEAL_DELTA_PUT.2)
        if delta_valid = false then (none, st)
        else
          let entry_signals1 : List String := entry_signals ++ ["delta_power_zone"]
          let confidence_score1 : ℚ := confidence_score + 20
          -- Rejection rules
          if should_reject_entry current_oi current_ltp prev_ltp current_iv prev_iv
              current_spread_percent current_delta prev_delta then (none, st)
          else
            -- Trap check
            let trap_result := TrapDetection.update_price_data st.trap now current_ltp bid ask
              current_volume current_oi current_oi_change current_delta current_iv
            let st1 : EntryEngineState := { st with trap := trap_result.2 }
            if TrapDetection.should_skip_entry trap_result.2 now trap_result.1 then (none, st1)
            else
              let confidence_score2 : ℚ := confidence_score1 + bias_confidence * 0.2
              let ctx : EntryContext :=
                { signal := if option_type = "CE" then .CALL_BUY else .PUT_BUY,
                  option_type := option_type, strike := selected_strike,
                  entry_price := current_ltp, entry_delta := current_delta,
                  entry_gamma := current_gamma, entry_theta := 0, entry_vega := 0,
                  entry_iv := current_iv, reason_tags := entry_signals1,
                  confidence := min confidence_score2 100 }
              let st2 : EntryEngineState :=
                { st1 with
                  last_entry_context := some ctx,
                  entry_history := st1.entry_history ++ [ctx] }
              (some ctx, st2)

/-- `EntryEngine.validate_entry_quality`. -/
def validate_entry_quality (context : EntryContext) : Bool :=
  if context.confidence < 15 then false
  else if |context.entry_delta| < 0.1 then false
  else true

end EntryEngine

/-! ## Bias Engine (src/engines/bias_engine.py) -/

namespace BiasEngine

/-- The `BiasState` enum. -/
inductive BiasState where
  | BULLISH
  | BEARISH
  | NO_TRADE
  | UNKNOWN
deriving Repr, DecidableEq

/-- The mutable state of `BiasEngine`: current bias/confidence plus the six
rolling history lists (the `metrics` dict, which duplicates the per-update
intermediate values for reporting, is elided).  History entries are
(timestamp, value); `oi_history` entries are (timestamp, oi, oi_change). -/
structure BiasEngineState where
  current_bias : BiasState
  bias_confidence : ℚ
  last_bias_update : Option ℚ
  price_history : List (ℚ × ℚ)
  delta_history : List (ℚ × ℚ)
  gamma_history : List (ℚ × ℚ)
  oi_history : List (ℚ × ℤ × ℚ)
  volume_history : List (ℚ × ℤ)
  iv_history : List (ℚ × ℚ)
deriving Repr, DecidableEq

def initBiasEngineState : BiasEngineState :=
  { current_bias := .UNKNOWN, bias_confidence := 0, last_bias_update := none,
    price_history := [], delta_history := [], gamma_history := [], oi_history := [],
    volume_history := [], iv_history := [] }

/-- `max_history = 100` trimming (`if len > 100` then keep the last 100). -/
def trim100 (l : List α) : List α := if l.length > 100 then lastN 100 l else l

/-- `BiasEngine._analyze_delta_signal`. -/
def analyze_delta_signal (current_delta : ℚ) : ℚ :=
  if current_delta ≥ Config.BULLISH_DELTA_MIN then 1
  else if current_delta ≤ Config.BEARISH_DELTA_MAX then -1
  else if |current_delta| ≥ Config.NO_TRADE_DELTA_WEAK then 0
  else 0

/-- `BiasEngine._is_gamma_rising` (reads the gamma history, to which the
current sample has already been appended; its two arguments are unused in
the source body as well). -/
def is_gamma_rising (gamma_history : List (ℚ × ℚ)) (current_gamma prev_gamma : ℚ) : Bool :=
  if gamma_history.length < 3 then false
  else
    let recent_gammas : List ℚ := (lastN 3 gamma_history).map (·.2)
    let gamma_trend : ℚ := recent_gammas.getLastD 0 - recent_gammas.headD 0
    decide (gamma_trend > Config.NO_TRADE_GAMMA_FLAT)

/-- `BiasEngine._check_oi_volume_alignment`. -/
def check_oi_volume_alignment (current_oi : ℤ) (current_oi_change : ℚ)
    (current_ltp prev_ltp : ℚ) (current_volume prev_volume : ℤ) : ℚ :=
  let oi_rising : Bool := decide (current_oi_change > 0)
  let ltp_rising : Bool := decide (current_ltp > prev_ltp)
  let vol_rising : Bool := decide (current_volume > prev_volume)
  if oi_rising then
    if ltp_rising ∧ vol_rising then 1
    else if ltp_rising ∨ vol_rising then 0.5
    else -1
  else 0

/-- `BiasEngine._check_iv_environment`. -/
def check_iv_environment (current_iv prev_iv : ℚ) : ℚ :=
  let iv_change_pct : ℚ := if prev_iv > 0 then (current_iv - prev_iv) / prev_iv * 100 else 0
  let iv_health_0 : ℚ :=
    if Config.IV_SAFE_ZONE.1 ≤ current_iv ∧ current_iv ≤ Config.IV_SAFE_ZONE.2 then 0.5
    else if current_iv < Config.IV_EXTREMELY_LOW_THRESHOLD then -0.5
    else if current_iv > Config.IV_EXTREMELY_HIGH_THRESHOLD then -0.3
    else 0.2
  let iv_health : ℚ :=
    if iv_change_pct < Config.REJECT_IV_DROP_PERCENT then iv_health_0 - 0.5 else iv_health_0
  max (-1) (min 1 iv_health)

/-- `BiasEngine._detect_market_structure` (reads the price history, to which
the current sample has already been appended; `[-10:-5]` is the prior
five-sample window, empty when fewer than six samples exist). -/
def detect_market_structure (price_history : List (ℚ × ℚ)) : String :=
  if price_history.length < 5 then "UNKNOWN"
  else
    let recent_prices : List ℚ := (lastN 5 price_history).map (·.2)
    let prior_prices : List ℚ :=
      ((price_history.take (price_history.length - 5)).drop (price_history.length - 10)).map (·.2)
    if prior_prices = [] then "UNKNOWN"
    else
      let recent_high := listMax recent_prices
      let recent_low := listMin recent_prices
      let prior_high := listMax prior_prices
      let prior_low := listMin prior_prices
      if recent_high > prior_high ∧ recent_low > prior_low then "HH-HL"
      else if recent_high < prior_high ∧ recent_low < prior_low then "LL-LH"
      else "SIDEWAYS"

/-- `BiasEngine._determine_bias`. -/
def determine_bias (delta_signal : ℚ) (gamma_rising : Bool) (oi_vol_align iv_health : ℚ)
    (market_structure : String) : BiasState × ℚ :=
  let bias_confidence : BiasState × ℚ :=
    if delta_signal > 0 then
      if gamma_rising ∧ oi_vol_align ≥ 0 then
        if iv_health ≥ -0.3 then (.BULLISH, 85) else (.BULLISH, 60)
      else (.NO_TRADE, 40)
    else if delta_signal < 0 then
      if gamma_rising ∧ oi_vol_align ≥ 0 then
        if iv_health ≥ -0.3 then (.BEARISH, 85) else (.BEARISH, 60)
      else (.NO_TRADE, 40)
    else (.NO_TRADE, 20)
  if market_structure = "SIDEWAYS" then (bias_confidence.1, bias_confidence.2 * 0.7)
  else bias_confidence

/-- One sample fed to `update_with_greeks_data`. -/
structure BiasSample where
  current_delta : ℚ
  prev_delta : ℚ
  current_gamma : ℚ
  prev_gamma : ℚ
  current_oi : ℤ
  current_oi_change : ℚ
  current_ltp : ℚ
  prev_ltp : ℚ
  current_volume : ℤ
  prev_volume : ℤ
  current_iv : ℚ
  prev_iv : ℚ
deriving Repr, DecidableEq

/-- `BiasEngine.update_with_greeks_data`: append the sample to the rolling
histories (trimmed to the last 100), compute the five component signals, and
set the current bias and confidence from `_determine_bias`. -/
def update_with_greeks_data (st : BiasEngineState) (now : ℚ) (s : BiasSample) :
    BiasEngineState :=
  let st1 : BiasEngineState :=
    { st with
      delta_history := trim100 (st.delta_history ++ [(now, s.current_delta)]),
      gamma_history := trim100 (st.gamma_history ++ [(now, s.current_gamma)]),
      oi_history := trim100 (st.oi_history ++ [(now, s.current_oi, s.current_oi_change)]),
      price_history := trim100 (st.price_history ++ [(now, s.current_ltp)]),
      volume_history := trim100 (st.volume_history ++ [(now, s.current_volume)]),
      iv_history := trim100 (st.iv_history ++ [(now, s.current_iv)]) }
  let delta_signal : ℚ := analyze_delta_signal s.current_delta
  let gamma_rising : Bool := is_gamma_rising st1.gamma_history s.current_gamma s.prev_gamma
  let oi_vol_align : ℚ := check_oi_volume_alignment s.current_oi s.current_oi_change
    s.current_ltp s.prev_ltp s.current_volume s.prev_volume
  let iv_health : ℚ := check_iv_environment s.current_iv s.prev_iv
  let market_structure : String := detect_market_structure st1.price_history
  let bias_confidence : BiasState × ℚ :=
    determine_bias delta_signal gamma_rising oi_vol_align iv_health market_structure
  { st1 with
    current_bias := bias_confidence.1,
    bias_confidence := bias_confidence.2,
    last_bias_update := some now }

/-- A sequence of updates applied left to right; each update carries its
wall-clock instant. -/
def applyUpdates (updates : List (ℚ × BiasSample)) (st : BiasEngineState) : BiasEngineState :=
  updates.foldl (fun acc u => update_with_greeks_data acc u.1 u.2) st

end BiasEngine

/-! ## Properties -/

section Claims

open PositionSizing GreeksDataManager RiskManager TradeManager TrapDetection EntryEngine
  BiasEngine

/-- The result record of the spec scenario under the committed configuration,
used as the concrete instance for the C2 theorem witness. -/
def c2WitnessResult : PositionSize :=
  { quantity := 0, lot_size := 75, num_lots := 0, capital_allocated := 0, max_loss_amount := 0,
    hard_sl_percent := 8, hard_sl_price := 92, target_price := 112, risk_reward_ratio := 0,
    sizing_valid := false, rejection_reason := some "SL too wide" }

/-- A snapshot cached at time 0, for the Greeks-cache properties. -/
def snapA : GreeksSnapshot :=
  { symbol := "X", timestamp := 0, delta := 0.5, gamma := 0.003, theta := -5, vega := 10,
    iv := 30, ltp := 100, bid := 99, ask := 101, volume := 1000, oi := 5000, oi_change := 10 }

/-- The snapshot delivered by the provider on the refreshing fetch. -/
def snapB : GreeksSnapshot := { snapA with delta := 0.6, ltp := 101 }

/-- Cache state holding `snapA` for symbol "X", with the last real fetch for
"X" at time 10.5. -/
def c4State : GDMState :=
  { initGDMState with greeks_cache := [("X", snapA)], last_api_call := [("X", 21/2)] }

/-- Risk-manager configuration instance for the halt properties. -/
def c5Config : RMConfig :=
  { max_daily_loss := 3000, max_daily_profit := 5000, max_trades_per_day := 5,
    max_position_size := 100, capital := 100000 }

/-- A halted state: the daily loss limit was breached. -/
def c5HaltedState : RMState :=
  { daily_pnl := -3000, trades_today := 3, total_risk_exposure := 0, losses_in_row := 2,
    trading_halted := true, halt_reason := some "Daily loss limit breached" }

/-- An open trade 301 seconds old, in loss, with the price below the stop and
the delta degraded — both the hard-SL and the delta-weakness conditions hold
on the update sample used below. -/
def c6Trade : Trade :=
  { trade_id := "T1", entry_time := 0, exit_time := none, option_type := "CE",
    strike := 20000, entry_price := 100, current_price := 90, quantity := 75,
    entry_delta := 0.5, entry_gamma := 0.004, entry_theta := -5, entry_iv := 30,
    sl_price := 92, target_price := 112, status := "OPEN", exit_reason := none,
    pnl := -750, pnl_percent := -10, time_in_trade_sec := 301 }

/-- The C9 property exactly as the claim words it: skip iff severity > 70, or
severity in (50, 70] with at least one other trap signal — distinct from the
passed one — recorded in the last 5 seconds; false otherwise, including on a
missing signal. -/
def should_skip_entry_claim (st : TrapState) (now : ℚ)
    (trap_signal : Option TrapSignal) : Bool :=
  match trap_signal with
  | none => false
  | some s =>
    if s.severity > 70 then true
    else if 50 < s.severity ∧ s.severity ≤ 70 then
      decide (((get_recent_traps st now 5).filter (fun t => decide (t ≠ s))).length > 0)
    else false

/-- The amended C9 property: as the claim, except that the recent trap signal
counted in the medium-severity case may be any recorded signal — including
the passed one, which `update_price_data` has just appended with a fresh
timestamp before `should_skip_entry` runs in the entry path. -/
def should_skip_entry_amended_spec (st : TrapState) (now : ℚ)
    (trap_signal : Option TrapSignal) : Bool :=
  match trap_signal with
  | none => false
  | some s =>
    if s.severity > 70 then true
    else if 50 < s.severity ∧ s.severity ≤ 70 then
      decide ((get_recent_traps st now 5).length > 0)
    else false

/-- A medium-severity signal just recorded at time 100. -/
def c9Signal : TrapSignal :=
  { trap_type := .SPREAD_WIDENING, severity := 60, timestamp := 100 }

/-- Trap state in which `c9Signal` itself is the only recorded signal. -/
def c9State : TrapState := { initTrapState with detected_traps := [c9Signal] }


/-- C1: with the configuration values committed in config/config.example.py
(risk and SL thresholds stored as decimal fractions), the spec scenario
(entry 100, stop 92, target 112, risk percent 2, capital 100000, lot size 75)
is rejected outright: the percent-form stop-loss percent 8 is compared
against `HARD_SL_PERCENT_EXCEED_SKIP = 0.10` and the sizing returns invalid
with quantity 0 and the "SL too wide" reason, not the claimed valid result
with quantity 225. -/
theorem c1_example_config_rejects_spec_scenario :
    calculate_position_size examplePSConfig 100 92 112 (some 2) none =
      some { quantity := 0, lot_size := 75, num_lots := 0, capital_allocated := 0,
             max_loss_amount := 0, hard_sl_percent := 8, hard_sl_price := 92,
             target_price := 112, risk_reward_ratio := 0, sizing_valid := false,
             rejection_reason := some "SL too wide" } := by
  norm_num [calculate_position_size, examplePSConfig, Config.RISK_PER_TRADE_MIN,
    Config.RISK_PER_TRADE_MAX, Config.RISK_PER_TRADE_OPTIMAL, Config.HARD_SL_PERCENT_MIN,
    Config.HARD_SL_PERCENT_EXCEED_SKIP, Config.CAPITAL, Config.MINIMUM_LOT_SIZE,
    Config.MAX_POSITION_SIZE]

/-- Under the integer-percentage-form configuration described by the spec and
by the source comments (risk bounds 1..5, optimal 2, exceed-skip 10), the
scenario computes exactly the values the spec lists: 3 lots, quantity
225 = 3 × 75, actual max loss 1800, stop-loss percent 8, and the sizing is
valid (the cap would reduce the quantity only if the configured max position
size were below 225). -/
theorem position_sizing_scenario_with_percent_config :
    calculate_position_size specPercentPSConfig 100 92 112 (some 2) none =
      some { quantity := 225, lot_size := 75, num_lots := 3, capital_allocated := 22500,
             max_loss_amount := 1800, hard_sl_percent := 8, hard_sl_price := 92,
             target_price := 112, risk_reward_ratio := 3/2, sizing_valid := true,
             rejection_reason := none } := by
  norm_num [calculate_position_size, specPercentPSConfig, pyInt, Rat.floor_def]

/-- C2 counterexample: with the committed configuration (lot size 75, max
position size 100) there is an input on which the sizing is valid yet the
returned quantity, 100, is neither 0 nor a multiple of the lot size: entry
1000, stop 999.7, target 1001, risk percent 0.05 gives 2 lots = 150 units,
then the cap truncates to 100 units (= 4/3 lots). -/
theorem c2_counterexample_cap_breaks_lot_multiple :
    (calculate_position_size examplePSConfig 1000 (9997/10) 1001 (some (1/20)) none).map
        (fun r => (r.quantity, r.num_lots, r.sizing_valid)) = some (100, 4/3, true) ∧
    ¬((75 : ℤ) ∣ 100) ∧ (100 : ℤ) ≠ 0 := by
  refine ⟨?_, by decide, by decide⟩
  norm_num [calculate_position_size, examplePSConfig, Config.RISK_PER_TRADE_MIN,
    Config.RISK_PER_TRADE_MAX, Config.RISK_PER_TRADE_OPTIMAL, Config.HARD_SL_PERCENT_MIN,
    Config.HARD_SL_PERCENT_EXCEED_SKIP, Config.CAPITAL, Config.MINIMUM_LOT_SIZE,
    Config.MAX_POSITION_SIZE, pyInt, Rat.floor_def, abs_of_nonneg, abs_of_nonpos]

set_option maxHeartbeats 2000000 in
/-- C2 (amended): for every input on which `calculate_position_size` returns
(rather than raising), the quantity is 0, or a positive multiple of the
configured lot size 75, or — when the cap binds — exactly the configured max
position size 100 (which need not be a lot multiple); and quantity 0 implies
the result is invalid with a non-empty rejection reason. -/
theorem c2_quantity_zero_or_lot_multiple_or_cap
    (entry_price hard_sl_price target_price : ℚ) (risk_percent_arg : Option ℚ)
    (expiry_rules : Option PSExpiryRules) (r : PositionSize)
    (h : calculate_position_size examplePSConfig entry_price hard_sl_price target_price
      risk_percent_arg expiry_rules = some r) :
    (r.quantity = 0 → r.sizing_valid = false ∧
      ∃ msg, r.rejection_reason = some msg ∧ msg ≠ "") ∧
    (r.quantity = 0 ∨ (0 < r.quantity ∧
      ((75 : ℤ) ∣ r.quantity ∨ r.quantity = 100))) := by
  simp only [calculate_position_size, examplePSConfig, Config.RISK_PER_TRADE_MIN,
    Config.RISK_PER_TRADE_MAX, Config.RISK_PER_TRADE_OPTIMAL, Config.HARD_SL_PERCENT_MIN,
    Config.HARD_SL_PERCENT_EXCEED_SKIP, Config.CAPITAL, Config.MINIMUM_LOT_SIZE,
    Config.MAX_POSITION_SIZE] at h
  split_ifs at h <;> simp only [reduceCtorEq, Option.some.injEq] at h <;> subst h <;>
    simp_all <;> omega


/-- Witness: the C2 theorem applied at the concrete input
(100, 92, 112, risk 2), whose result has quantity 0, a false validity flag
and a non-empty rejection reason. -/
theorem c2_witness :
    (c2WitnessResult.quantity = 0 → c2WitnessResult.sizing_valid = false ∧
      ∃ msg, c2WitnessResult.rejection_reason = some msg ∧ msg ≠ "") ∧
    (c2WitnessResult.quantity = 0 ∨ (0 < c2WitnessResult.quantity ∧
      ((75 : ℤ) ∣ c2WitnessResult.quantity ∨ c2WitnessResult.quantity = 100))) :=
  c2_quantity_zero_or_lot_multiple_or_cap 100 92 112 (some 2) none c2WitnessResult
    (by norm_num [calculate_position_size, examplePSConfig, c2WitnessResult,
      Config.RISK_PER_TRADE_MIN, Config.RISK_PER_TRADE_MAX, Config.RISK_PER_TRADE_OPTIMAL,
      Config.HARD_SL_PERCENT_MIN, Config.HARD_SL_PERCENT_EXCEED_SKIP, Config.CAPITAL,
      Config.MINIMUM_LOT_SIZE, Config.MAX_POSITION_SIZE])

/-- C3: with a positive stop price and entry price 0 the stop-loss-percent
division raises `ZeroDivisionError` (modelled as `none`) instead of returning
an invalid result, while the other invalid computation input named by the
claim — stop price equal to entry price, i.e. zero price range — does return
an invalid result with the "Invalid SL calculation" reason. -/
theorem c3_zero_entry_price_raises_zero_range_invalid :
    calculate_position_size examplePSConfig 0 92 112 none none = none ∧
    (calculate_position_size examplePSConfig 100 100 112 none none).map
        (fun r => (r.sizing_valid, r.rejection_reason)) =
      some (false, some "Invalid SL calculation") := by
  constructor <;>
    norm_num [calculate_position_size, examplePSConfig, Config.RISK_PER_TRADE_MIN,
      Config.RISK_PER_TRADE_MAX, Config.RISK_PER_TRADE_OPTIMAL, Config.HARD_SL_PERCENT_MIN,
      Config.HARD_SL_PERCENT_EXCEED_SKIP, Config.CAPITAL, Config.MINIMUM_LOT_SIZE,
      Config.MAX_POSITION_SIZE]

/-- C4 counterexample: at time 11 the cached entry (age 11 > TTL 10) is
stale, and only 0.5s — less than the minimum inter-call interval of 1s — has
passed since the last real fetch; yet `get_greeks` calls the provider (the
API-call counter increments) and returns the fresh snapshot rather than the
cached one, because the refresh it triggers passes `force=True`. -/
theorem c4_counterexample_get_greeks_bypasses_rate_limit :
    (get_greeks c4State "X" false 11 (.success snapB)).2.api_calls_total
        = c4State.api_calls_total + 1 ∧
    (get_greeks c4State "X" false 11 (.success snapB)).1 ≠ some snapA ∧
    snapA.is_stale 11 Config.GREEKS_CACHE_TTL = true ∧
    11 - ((assocGet c4State.last_api_call "X").getD 0) < Config.GREEKS_API_MIN_INTERVAL := by
  refine ⟨?_, ?_, ?_, ?_⟩ <;>
    norm_num [get_greeks, fetch_greeks_for_symbol, c4State, initGDMState, snapA, snapB,
      assocGet, assocSet, GreeksSnapshot.is_stale, Config.GREEKS_CACHE_TTL,
      Config.GREEKS_API_MIN_INTERVAL]

/-- C4 (amended): the per-symbol rate limit governs only refreshes invoked
with `force=False` — that is, those of the background refresh loop: such a
refresh within the minimum inter-call interval since the last real fetch
returns the cached value (or `none` if none exists) and leaves the state
untouched, calling no provider.  A `get_greeks`-triggered refresh passes
`force=True` and is not rate limited. -/
theorem c4_rate_limited_refresh_serves_cache (st : GDMState) (symbol : String) (now : ℚ)
    (provider : ProviderOutcome)
    (h : now - ((assocGet st.last_api_call symbol).getD 0) < Config.GREEKS_API_MIN_INTERVAL) :
    fetch_greeks_for_symbol st symbol now provider false =
      (assocGet st.greeks_cache symbol, st) := by
  simp [fetch_greeks_for_symbol, h]

/-- Witness: the C4 theorem applied to the concrete state `c4State` at time
11, 0.5s after the last real fetch. -/
theorem c4_witness :
    fetch_greeks_for_symbol c4State "X" 11 (.success snapB) false
      = (assocGet c4State.greeks_cache "X", c4State) :=
  c4_rate_limited_refresh_serves_cache c4State "X" 11 (.success snapB)
    (by norm_num [c4State, initGDMState, assocGet, Config.GREEKS_API_MIN_INTERVAL])

/-- C7: whatever the cache state, if the provider fails (non-success
response) or raises, `get_greeks` returns exactly the last cached snapshot
for the symbol — and `none` when no snapshot was ever cached — never
propagating the failure. -/
theorem c7_provider_failure_serves_last_cached (st : GDMState) (symbol : String)
    (force_refresh : Bool) (now : ℚ) :
    (get_greeks st symbol force_refresh now .failure).1 = assocGet st.greeks_cache symbol ∧
    (get_greeks st symbol force_refresh now .raised).1 = assocGet st.greeks_cache symbol := by
  constructor <;>
  · simp only [get_greeks, fetch_greeks_for_symbol]
    cases force_refresh <;> cases hc : assocGet st.greeks_cache symbol <;>
      simp [hc] <;> split_ifs <;> simp [hc]

/-- C5 counterexample: `reset_daily_stats` also clears the halted flag, so
`resume_trading` is not the only operation that does — after a reset (and no
`resume_trading` call) the manager is un-halted and `can_take_trade` allows a
trade again. -/
theorem c5_counterexample_reset_clears_halt :
    c5HaltedState.trading_halted = true ∧
    (reset_daily_stats c5HaltedState).trading_halted = false ∧
    (can_take_trade c5Config (reset_daily_stats c5HaltedState)
        { quantity := 75, risk_amount := 600 } true).1.1 = true := by
  refine ⟨rfl, rfl, ?_⟩
  norm_num [can_take_trade, reset_daily_stats, c5Config, c5HaltedState]

/-- Helper: each of `can_take_trade`, `record_trade`, `update_risk_exposure`
preserves a set halted flag (they may set it, never clear it). -/
theorem rm_op_preserves_halt (cfg : RMConfig) (st : RMState) (op : RMOp)
    (h : st.trading_halted = true) : (applyRMOp cfg st op).trading_halted = true := by
  cases op with
  | canTakeTrade info w => simp [applyRMOp, can_take_trade, h]
  | recordTrade pnl =>
    simp only [applyRMOp, record_trade, check_circuit_breakers, halt_trading]
    split_ifs <;> simp_all
  | updateRiskExposure d => simp [applyRMOp, update_risk_exposure, h]

/-- C5 (amended): once halted, the manager stays halted — and
`can_take_trade` keeps answering false — under every sequence of
`can_take_trade`, `record_trade` and `update_risk_exposure` calls; only
`resume_trading` or `reset_daily_stats` (which both clear the flag) end the
halt. -/
theorem c5_halt_persists_without_reset_or_resume (cfg : RMConfig) (ops : List RMOp)
    (st : RMState) (h : st.trading_halted = true) :
    (applyRMOps cfg ops st).trading_halted = true ∧
    ∀ (info : TradeInfo) (w : Bool),
      (can_take_trade cfg (applyRMOps cfg ops st) info w).1.1 = false := by
  have hh : (applyRMOps cfg ops st).trading_halted = true := by
    induction ops generalizing st with
    | nil => exact h
    | cons op rest ih =>
      simpa [applyRMOps] using ih (applyRMOp cfg st op) (rm_op_preserves_halt cfg st op h)
  exact ⟨hh, fun info w => by simp [can_take_trade, hh]⟩

/-- Witness: the C5 theorem applied to the concrete halted state and a
concrete three-operation sequence. -/
theorem c5_witness :
    (applyRMOps c5Config
        [RMOp.recordTrade (-500), RMOp.updateRiskExposure 100,
         RMOp.canTakeTrade { quantity := 75, risk_amount := 600 } true]
      c5HaltedState).trading_halted = true ∧
    (can_take_trade c5Config
        (applyRMOps c5Config
          [RMOp.recordTrade (-500), RMOp.updateRiskExposure 100,
           RMOp.canTakeTrade { quantity := 75, risk_amount := 600 } true]
          c5HaltedState)
        { quantity := 75, risk_amount := 600 } true).1.1 = false :=
  ⟨(c5_halt_persists_without_reset_or_resume c5Config
      [RMOp.recordTrade (-500), RMOp.updateRiskExposure 100,
       RMOp.canTakeTrade { quantity := 75, risk_amount := 600 } true]
      c5HaltedState rfl).1,
   (c5_halt_persists_without_reset_or_resume c5Config
      [RMOp.recordTrade (-500), RMOp.updateRiskExposure 100,
       RMOp.canTakeTrade { quantity := 75, risk_amount := 600 } true]
      c5HaltedState rfl).2 { quantity := 75, risk_amount := 600 } true⟩

/-- C6 counterexample: with an expiry rule bundle active and the max
time-in-trade exceeded, the exit waterfall returns the expiry forced-loss
reason even though the hard-SL condition (90 ≤ 92) and the delta-weakness
condition (0.1/0.5 = 0.2 < 0.9985) hold simultaneously — so the returned
reason is not always the hard-SL reason. -/
theorem c6_counterexample_expiry_exit_preempts_hard_sl :
    ((90 : ℚ) ≤ c6Trade.sl_price) ∧
    (|(0.1 : ℚ)| / |c6Trade.entry_delta| < 1 - Config.EXIT_DELTA_WEAKNESS_PERCENT / 100) ∧
    check_exit_triggers c6Trade 90 0.1 0.001 (-6) 25 5000 5000 90
        (some { min_time_in_trade := some 20, max_time_in_trade := some 300 })
      = some "expiry_time_forced_exit_loss" := by
  refine ⟨by norm_num [c6Trade], ?_, ?_⟩ <;>
    norm_num [check_exit_triggers, c6Trade, Config.EXIT_DELTA_WEAKNESS_PERCENT,
      Config.ENTRY_PROFIT_TARGET_PERCENT, abs_of_nonneg, abs_of_nonpos]

/-- C6 (amended): whenever the hard-SL condition holds and no expiry-rules
time-based exit fires on the sample (in particular whenever no expiry rule
bundle is active), the returned exit reason is the hard-SL reason — the
expiry time-based exits are the only triggers with higher priority. -/
theorem c6_hard_sl_wins_unless_expiry_time_exit (trade : Trade)
    (current_price current_delta current_gamma current_theta current_iv : ℚ)
    (current_oi prev_oi : ℤ) (prev_price : ℚ) (expiry_rules : Option TMExpiryRules)
    (hsl : current_price ≤ trade.sl_price)
    (hexp : ∀ rules, expiry_rules = some rules →
      trade.time_in_trade_sec ≤ rules.max_time_in_trade.getD 300 ∧
      ¬(trade.time_in_trade_sec > rules.min_time_in_trade.getD 20 ∧ trade.pnl > 0 ∧
        current_price ≥ trade.entry_price * (1 + Config.ENTRY_PROFIT_TARGET_PERCENT / 100))) :
    check_exit_triggers trade current_price current_delta current_gamma current_theta
      current_iv current_oi prev_oi prev_price expiry_rules = some "hard_sl_hit" := by
  cases expiry_rules with
  | none => simp [check_exit_triggers, hsl]
  | some rules =>
    obtain ⟨h1, h2⟩ := hexp rules rfl
    have hmax : ¬(trade.time_in_trade_sec > rules.max_time_in_trade.getD 300) := by omega
    by_cases hmin : trade.time_in_trade_sec > rules.min_time_in_trade.getD 20 ∧ trade.pnl > 0
    · have hpt : ¬(current_price ≥
          trade.entry_price * (1 + Config.ENTRY_PROFIT_TARGET_PERCENT / 100)) :=
        fun hge => h2 ⟨hmin.1, hmin.2, hge⟩
      simp [check_exit_triggers, hmax, hmin, hpt, hsl]
    · simp [check_exit_triggers, hmax, hmin, hsl]

/-- Witness: the C6 theorem applied to the concrete trade with no expiry rule
bundle active: the same both-conditions sample yields the hard-SL reason. -/
theorem c6_witness :
    check_exit_triggers c6Trade 90 0.1 0.001 (-6) 25 5000 5000 90 none
      = some "hard_sl_hit" :=
  c6_hard_sl_wins_unless_expiry_time_exit c6Trade 90 0.1 0.001 (-6) 25 5000 5000 90 none
    (by norm_num [c6Trade]) (fun rules h => nomatch h)

/-- C8: concrete `check_entry_signal` input on a fresh engine in which the
current last price 99 is strictly below the previous last price 100, yet —
because the LTP-rising signal only contributes to the score and count instead
of being enforced — volume, OI-change and gamma signals alone satisfy the
count (3 ≥ 2) and confidence (40 ≥ 40) thresholds, the delta power zone and
rejection rules pass, no trap fires on the fresh buffers, and an
`EntryContext` is emitted. -/
theorem c8_entry_emitted_with_falling_ltp :
    ((99 : ℚ) < 100) ∧
    (check_entry_signal initEntryEngineState 0 "BULLISH" 50 0.5 0.5 0.003 0.002 1000 10
        99 100 200 100 30 30 (989/10) (991/10) 20000 (2/10) none).1 =
      some { signal := .CALL_BUY, option_type := "CE", strike := 20000, entry_price := 99,
             entry_delta := 0.5, entry_gamma := 0.003, entry_theta := 0, entry_vega := 0,
             entry_iv := 30,
             reason_tags := ["volume_rising", "oi_rising", "gamma_rising", "delta_power_zone"],
             confidence := 70 } := by
  refine ⟨by norm_num, ?_⟩
  norm_num [check_entry_signal, initEntryEngineState, should_reject_entry,
    TrapDetection.update_price_data, TrapDetection.initTrapState,
    TrapDetection.detect_oi_no_premium_trap, TrapDetection.detect_premium_no_oi_trap,
    TrapDetection.detect_oi_spike_no_follow_trap, TrapDetection.detect_iv_crush_trap,
    TrapDetection.detect_choppy_underlying_trap, TrapDetection.detect_spread_widening_trap,
    TrapDetection.detect_liquidity_evaporation_trap,
    TrapDetection.detect_delta_spike_collapse_trap, TrapDetection.trim50,
    TrapDetection.should_skip_entry, TrapDetection.get_recent_traps, lastN,
    Config.MAX_SPREAD_PERCENT, Config.ENTRY_VOLUME_RISING, Config.ENTRY_OI_RISING,
    Config.ENTRY_GAMMA_RISING, Config.MIN_OI_CHANGE_FOR_ENTRY, Config.IDEAL_GAMMA_MIN,
    Config.ENTRY_SIGNALS_REQUIRED_COUNT, Config.ENTRY_MIN_CONFIDENCE,
    Config.IDEAL_DELTA_CALL, Config.IDEAL_DELTA_PUT, Config.REJECT_OI_FLAT_THRESHOLD,
    Config.REJECT_IV_DROP_PERCENT, Config.REJECT_SPREAD_WIDENING,
    Config.REJECT_DELTA_SPIKE_COLLAPSE, Config.DETECT_OI_TRAP_NO_PREMIUM_RISE,
    Config.DETECT_OI_TRAP_PREMIUM_RISE_NO_OI, Config.DETECT_OI_TRAP_SPIKE_NO_FOLLOW,
    Config.DETECT_IV_TRAP_SUDDEN_DROP, Config.DETECT_IV_TRAP_CHOPPY_UNDERLYING,
    Config.DETECT_SPREAD_TRAP_WIDE_ENTRY, Config.DETECT_LIQUIDITY_DROP,
    abs_of_nonneg, abs_of_nonpos]
  simp

/-- C9 counterexample: for a severity-60 signal whose only recent companion
in the log is itself, the code skips the entry while the claim — which
demands a distinct other signal — says it must not. -/
theorem c9_counterexample_self_signal_triggers_skip :
    should_skip_entry c9State 100 (some c9Signal) = true ∧
    should_skip_entry_claim c9State 100 (some c9Signal) = false := by
  constructor <;>
    norm_num [should_skip_entry, should_skip_entry_claim, get_recent_traps, c9State,
      c9Signal, initTrapState, List.filter]

/-- C9 (amended): `should_skip_entry` coincides everywhere with the amended
property — severity > 70 skips; severity in (50, 70] skips exactly when any
trap signal (the passed one included) is recorded in the last 5 seconds; all
other cases, a missing signal included, do not skip. -/
theorem c9_should_skip_entry_amended (st : TrapState) (now : ℚ)
    (trap_signal : Option TrapSignal) :
    should_skip_entry st now trap_signal = should_skip_entry_amended_spec st now trap_signal := by
  cases trap_signal with
  | none => rfl
  | some s =>
    simp only [should_skip_entry, should_skip_entry_amended_spec]
    by_cases h70 : s.severity > 70
    · simp [h70]
    · by_cases h50 : s.severity > 50
      · have hc : 50 < s.severity ∧ s.severity ≤ 70 := ⟨h50, by linarith⟩
        simp [h70, h50, hc]
      · simp [h70, h50]

/-- Helper: `_determine_bias` always returns one of the three decided states
with a confidence among {85, 60, 40, 20}, possibly scaled by 0.7 — in every
case inside [0, 100]. -/
theorem determine_bias_range (delta_signal : ℚ) (gamma_rising : Bool)
    (oi_vol_align iv_health : ℚ) (market_structure : String) :
    (determine_bias delta_signal gamma_rising oi_vol_align iv_health
      market_structure).1 ≠ BiasState.UNKNOWN ∧
    0 ≤ (determine_bias delta_signal gamma_rising oi_vol_align iv_health
      market_structure).2 ∧
    (determine_bias delta_signal gamma_rising oi_vol_align iv_health
      market_structure).2 ≤ 100 := by
  simp only [determine_bias]
  split_ifs <;> exact ⟨by decide, by norm_num⟩

/-- Helper: every single update leaves the engine in a decided state with
confidence in [0, 100], regardless of the previous state. -/
theorem update_with_greeks_data_range (st : BiasEngineState) (now : ℚ) (s : BiasSample) :
    (update_with_greeks_data st now s).current_bias ≠ BiasState.UNKNOWN ∧
    0 ≤ (update_with_greeks_data st now s).bias_confidence ∧
    (update_with_greeks_data st now s).bias_confidence ≤ 100 := by
  simp only [update_with_greeks_data]
  exact determine_bias_range _ _ _ _ _

/-- Helper: the decided-state/confidence-range property is preserved by any
further sequence of updates. -/
theorem applyUpdates_preserves_range (updates : List (ℚ × BiasSample))
    (st : BiasEngineState)
    (h : st.current_bias ≠ BiasState.UNKNOWN ∧ 0 ≤ st.bias_confidence ∧
      st.bias_confidence ≤ 100) :
    (applyUpdates updates st).current_bias ≠ BiasState.UNKNOWN ∧
    0 ≤ (applyUpdates updates st).bias_confidence ∧
    (applyUpdates updates st).bias_confidence ≤ 100 := by
  induction updates generalizing st with
  | nil => exact h
  | cons u rest ih =>
    simpa [applyUpdates] using
      ih (update_with_greeks_data st u.1 u.2) (update_with_greeks_data_range st u.1 u.2)

/-- C10: the bias state is by construction one of BULLISH, BEARISH, NO_TRADE,
UNKNOWN (the `BiasState` type); before the first update it is UNKNOWN with
confidence 0; and after every nonempty sequence of updates it is one of the
three decided states with confidence in [0, 100]. -/
theorem c10_bias_state_and_confidence_invariants :
    initBiasEngineState.current_bias = BiasState.UNKNOWN ∧
    initBiasEngineState.bias_confidence = 0 ∧
    (∀ (updates : List (ℚ × BiasSample)),
      0 ≤ (applyUpdates updates initBiasEngineState).bias_confidence ∧
      (applyUpdates updates initBiasEngineState).bias_confidence ≤ 100) ∧
    (∀ (u : ℚ × BiasSample) (updates : List (ℚ × BiasSample)),
      (applyUpdates (u :: updates) initBiasEngineState).current_bias
        ≠ BiasState.UNKNOWN) := by
  refine ⟨rfl, rfl, fun updates => ?_, fun u updates => ?_⟩
  · induction updates with
    | nil => exact ⟨le_refl 0, by norm_num [initBiasEngineState, applyUpdates]⟩
    | cons u rest _ =>
      have h0 := update_with_greeks_data_range initBiasEngineState u.1 u.2
      have h := applyUpdates_preserves_range rest
        (update_with_greeks_data initBiasEngineState u.1 u.2) h0
      exact ⟨by simpa [applyUpdates] using h.2.1, by simpa [applyUpdates] using h.2.2⟩
  · have h0 := update_with_greeks_data_range initBiasEngineState u.1 u.2
    have h := applyUpdates_preserves_range updates
      (update_with_greeks_data initBiasEngineState u.1 u.2) h0
    simpa [applyUpdates] using h.1

end Claims
